import Mathlib

/-!
Shallow embedding of the store-performance dashboard
(`src/App.tsx`, `src/components/Chatbot.tsx` — which also carries the
`FileUpload`, `MapVisualization` and `types` modules — and
`src/types/google-maps.d.ts`), together with proofs of the frozen claims
about it.

JavaScript numbers appear in this code base only as values that are copied
around and compared with `===` (no arithmetic is ever performed on them), so
they are embedded as `JsNum`: a rational value or the distinguished `nan`
produced by `parseFloat` on non-numeric input, with `===` modelled by
`JsNum.strictEq` (on which `nan` is equal to nothing, including itself).
-/

/-- A JavaScript number as used by this program: either an ordinary numeric
value (embedded as a rational) or `NaN` (what `parseFloat` yields on
non-numeric input). -/
inductive JsNum where
  | nan : JsNum
  | val (q : ℚ) : JsNum
deriving DecidableEq, Repr

/-- JavaScript strict equality `===` on numbers: `NaN` compares unequal to
everything, including itself. -/
def JsNum.strictEq : JsNum → JsNum → Bool
  | JsNum.val a, JsNum.val b => a == b
  | _, _ => false

/-- JavaScript truthiness of an optional string: `undefined` and the empty
string are falsy (`if (s)` in the source). -/
def jsTruthyStr : Option String → Bool
  | none => false
  | some s => !s.isEmpty

/-- `StoreData` from `src/types` (`types.ts`): one store record. `city` is
`Option String` because `sheet_to_json` omits absent cells, so `row.City` can
be `undefined` at runtime even though the TS annotation says `string`. The
unused optional `functionCalls` field of the surrounding code is not
referenced anywhere and is omitted. -/
structure StoreData where
  id : String
  city : Option String
  latitude : JsNum
  longitude : JsNum
  sales : JsNum
  profit : JsNum
  employees : JsNum
deriving DecidableEq, Repr

/-- `LatLng` from `src/types`: the user's own coordinate. -/
structure LatLng where
  latitude : JsNum
  longitude : JsNum
deriving DecidableEq, Repr

/-- Message role of `ChatMessage` (`'user' | 'model' | 'system'`). -/
inductive Role where
  | user : Role
  | model : Role
  | system : Role
deriving DecidableEq, Repr

/-- `parts` of a `ChatMessage`: `Part[] | string`. The structured alternative
is embedded as a list of part texts; the component only ever constructs the
string alternative. -/
inductive MsgParts where
  | str (s : String) : MsgParts
  | structured (l : List String) : MsgParts
deriving DecidableEq, Repr

/-- `ChatMessage` from `src/types`. `Date` timestamps are embedded as natural
numbers supplied by the caller. -/
structure ChatMessage where
  role : Role
  parts : MsgParts
  timestamp : Nat
  groundingUris : Option (List String) := none
deriving DecidableEq, Repr

/-! ## Application shell (`src/App.tsx`) -/

/-- The state held by the `App` component: store list, current selection,
geolocation result and the geolocation-prompt flag. -/
structure AppState where
  stores : List StoreData
  selectedStore : Option StoreData
  userLocation : Option LatLng
  showGeolocationPrompt : Bool
deriving DecidableEq, Repr

/-- `handleDataUpload` in `src/App.tsx`: `setStores(data)` followed by
`setSelectedStore(null)`. -/
def handleDataUpload (st : AppState) (data : List StoreData) : AppState :=
  { st with stores := data, selectedStore := none }

/-- `handleStoreSelect` in `src/App.tsx`. -/
def handleStoreSelect (st : AppState) (store : Option StoreData) : AppState :=
  { st with selectedStore := store }

/-- `clearSelection` in `src/App.tsx`. -/
def clearSelection (st : AppState) : AppState :=
  { st with selectedStore := none }

/-! ## Chat assistant: location bias (`handleSendMessage`, Chatbot.tsx) -/

/-- `RetrievalConfig` as built at Chatbot.tsx lines 101–107: a `latLng`
coordinate. -/
structure RetrievalConfig where
  latLng : LatLng
deriving DecidableEq, Repr

/-- The `toolConfig` wrapper placed into `sendMessageConfig`. -/
structure ToolConfig where
  retrievalConfig : RetrievalConfig
deriving DecidableEq, Repr

/-- The `sendMessageConfig` object passed to `sendMessageStream`: it carries a
`toolConfig` key exactly when a retrieval config was chosen. -/
structure SendMessageConfig where
  toolConfig : Option ToolConfig
deriving DecidableEq, Repr

/-- Chatbot.tsx lines 98–107: choose the retrieval config. A selected store
takes priority; otherwise the user's geolocation; otherwise none. -/
def chooseRetrievalConfig (selectedStore : Option StoreData)
    (userLocation : Option LatLng) : Option RetrievalConfig :=
  match selectedStore with
  | some s => some ⟨⟨s.latitude, s.longitude⟩⟩
  | none =>
    match userLocation with
    | some loc => some ⟨loc⟩
    | none => none

/-- Chatbot.tsx lines 110–113: wrap the chosen retrieval config (if any) into
the per-message send configuration. -/
def buildSendMessageConfig (selectedStore : Option StoreData)
    (userLocation : Option LatLng) : SendMessageConfig :=
  match chooseRetrievalConfig selectedStore userLocation with
  | some rc => ⟨some ⟨rc⟩⟩
  | none => ⟨none⟩

/-! ## Chat assistant: mount-time initialization (Chatbot.tsx lines 52–76) -/

/-- The chat session created by `ai.chats.create`: model identifier and the
enabled tool list (`googleSearch` and `googleMaps`). -/
structure ChatSession where
  model : String
  tools : List String
deriving DecidableEq, Repr

/-- The session built at Chatbot.tsx lines 63–70. -/
def geminiChatSession : ChatSession :=
  { model := "GEMINI_MODEL_FLASH", tools := ["googleSearch", "googleMaps"] }

/-- The state of the `Chatbot` component that the claims touch. -/
structure ChatState where
  messages : List ChatMessage
  inputMessage : String
  loading : Bool
  chat : Option ChatSession
deriving DecidableEq, Repr

/-- The `Chatbot` component state at mount (initial `useState`/`useRef`
values). -/
def mountChatState : ChatState :=
  { messages := [], inputMessage := "", loading := false, chat := none }

/-- The fixed message appended when the API key is missing
(Chatbot.tsx line 57). -/
def apiKeyMissingMessage (now : Nat) : ChatMessage :=
  { role := Role.model,
    parts := MsgParts.str "Error: API Key missing. AI assistant cannot function.",
    timestamp := now }

/-- The message appended when session creation throws
(Chatbot.tsx line 73). -/
def initFailedMessage (now : Nat) : ChatMessage :=
  { role := Role.model,
    parts := MsgParts.str
      "Error: Could not initialize AI assistant. Check console for details.",
    timestamp := now }

/-- The mount effect of Chatbot.tsx lines 52–76: with a falsy API key, append
the fixed error message and return without creating a session; otherwise
create the session, unless creation throws (`createThrows`), in which case the
catch block appends its own error message. -/
def initChatEffect (apiKey : Option String) (createThrows : Bool) (now : Nat)
    (st : ChatState) : ChatState :=
  if !(jsTruthyStr apiKey) then
    { st with messages := st.messages ++ [apiKeyMissingMessage now] }
  else if createThrows then
    { st with messages := st.messages ++ [initFailedMessage now] }
  else
    { st with chat := some geminiChatSession }

/-- `disabled={loading || !chatRef.current}` on the chat input
(Chatbot.tsx line 244). -/
def chatInputDisabled (st : ChatState) : Bool :=
  st.loading || st.chat.isNone

/-! ## Map view: script loading (MapVisualization, Chatbot.tsx source) -/

/-- The pieces of browser/module state that `loadGoogleMapsScript` consults
and mutates (other than the auth-failure hook, modelled separately). -/
structure MapsDomState where
  googleMapsAvailable : Bool
  mapRefAttached : Bool
  mapInitialized : Bool
  loadingInFlight : Bool
  mapLoadError : Option String
  scriptTagPresent : Bool
deriving DecidableEq, Repr

/-- What a call to `loadGoogleMapsScript` did. -/
inductive LoadCall where
  | resolvedExisting : LoadCall
  | joinedPending : LoadCall
  | rejectedConfig : LoadCall
  | injectionStarted : LoadCall
deriving DecidableEq, Repr

/-- The key validation of MapVisualization lines 446: falsy key, or the
literal unresolved placeholder string. -/
def mapsApiKeyInvalid (key : Option String) : Bool :=
  !(jsTruthyStr key) || key == some "process.env.API_KEY"

/-- The configuration error set when the key check fails. -/
def mapsConfigErrorMsg : String :=
  "Google Maps API Key is missing or incorrectly configured. Please ensure `process.env.API_KEY` is set in your environment variables and correctly bundled for client-side use. Map cannot be loaded."

/-- `loadGoogleMapsScript` (synchronous part): resolve immediately if the SDK
and map instance already exist; join a pending load; reject on an invalid key
without touching the DOM; otherwise remove any stale script tag and inject a
fresh one, recording the in-flight promise. -/
def loadGoogleMapsScript (key : Option String) (st : MapsDomState) :
    LoadCall × MapsDomState :=
  if st.googleMapsAvailable && st.mapRefAttached && st.mapInitialized then
    (LoadCall.resolvedExisting, st)
  else if st.loadingInFlight then
    (LoadCall.joinedPending, st)
  else if mapsApiKeyInvalid key then
    (LoadCall.rejectedConfig, { st with mapLoadError := some mapsConfigErrorMsg })
  else
    (LoadCall.injectionStarted,
      { st with scriptTagPresent := true, loadingInFlight := true })

/-! ## Grounding metadata and `extractGroundingUris` (Chatbot.tsx 15–40) -/

/-- `if (x) { uris.push(x) }` for an optional string: the pushed list (empty
when `x` is absent or the empty string, both falsy). -/
def truthyToList : Option String → List String
  | none => []
  | some u => if u.isEmpty then [] else [u]

/-- A review snippet inside a place-answer source. -/
structure ReviewSnippet where
  uri : Option String
deriving DecidableEq, Repr

/-- A place-answer source; `reviewSnippets` is absent or an array. -/
structure PlaceAnswerSource where
  reviewSnippets : Option (List ReviewSnippet)
deriving DecidableEq, Repr

/-- The `maps` grounding of a chunk; `placeAnswerSources` is `some` exactly
when the field is an array (the source guards with `Array.isArray`). -/
structure MapsGrounding where
  uri : Option String
  placeAnswerSources : Option (List PlaceAnswerSource)
deriving DecidableEq, Repr

/-- The `web` grounding of a chunk. -/
structure WebGrounding where
  uri : Option String
deriving DecidableEq, Repr

/-- One grounding chunk of the response metadata. -/
structure GroundingChunk where
  web : Option WebGrounding
  maps : Option MapsGrounding
deriving DecidableEq, Repr

/-- `groundingMetadata` of a candidate. -/
structure GroundingMetadata where
  groundingChunks : Option (List GroundingChunk)
deriving DecidableEq, Repr

/-- A response candidate (only its grounding metadata is read). -/
structure Candidate where
  groundingMetadata : Option GroundingMetadata
deriving DecidableEq, Repr

/-- `GenerateContentResponse`: the fields the component reads — the candidate
list and the streamed `text` fragment. -/
structure GenerateContentResponse where
  candidates : Option (List Candidate)
  text : Option String
deriving DecidableEq, Repr

/-- The `for (const snippet of source.reviewSnippets)` loop of
`extractGroundingUris` (Chatbot.tsx 28–34), guarded by the truthiness of
`source.reviewSnippets`. -/
def snippetFold (acc : List String) (src : PlaceAnswerSource) : List String :=
  match src.reviewSnippets with
  | some snippets =>
    snippets.foldl (fun acc2 sn => acc2 ++ truthyToList sn.uri) acc
  | none => acc

/-- The `for (const source of chunk.maps.placeAnswerSources)` loop of
`extractGroundingUris` (Chatbot.tsx 26–36), guarded by `Array.isArray`. -/
def placeAnswerUris (maps : Option MapsGrounding) : List String :=
  match maps.bind MapsGrounding.placeAnswerSources with
  | some sources => sources.foldl snippetFold []
  | none => []

/-- The body of the per-chunk loop of `extractGroundingUris`
(Chatbot.tsx 18–37): push the web URI, the maps URI, then the review-snippet
URIs. -/
def chunkFold (uris : List String) (chunk : GroundingChunk) : List String :=
  ((uris ++ truthyToList (chunk.web.bind WebGrounding.uri))
    ++ truthyToList (chunk.maps.bind MapsGrounding.uri))
    ++ placeAnswerUris chunk.maps

/-- `extractGroundingUris` (Chatbot.tsx 15–40), with the `uris.push` loop
rendered as a left fold appending to the accumulator. -/
def extractGroundingUris (response : GenerateContentResponse) : List String :=
  match response.candidates with
  | some (c :: _) =>
    match c.groundingMetadata with
    | some gm =>
      match gm.groundingChunks with
      | some chunks => chunks.foldl chunkFold []
      | none => []
    | none => []
  | _ => []

/-- The URIs the claim says one grounding chunk contributes: the web URI when
truthy, then the maps URI when truthy, then every review-snippet URI of every
place-answer source in order. Written from the claim's words as the
specification side of C10. -/
def chunkUrisSpec (chunk : GroundingChunk) : List String :=
  truthyToList (chunk.web.bind WebGrounding.uri)
    ++ truthyToList (chunk.maps.bind MapsGrounding.uri)
    ++ ((chunk.maps.bind MapsGrounding.placeAnswerSources).getD []).flatMap
        (fun src => (src.reviewSnippets.getD []).flatMap
          (fun sn => truthyToList sn.uri))

/-- The specification side of C10: read only the first candidate, and
concatenate each of its grounding chunks' contributions in order. -/
def groundingUrisSpec (response : GenerateContentResponse) : List String :=
  match response.candidates with
  | some (c :: _) =>
    ((c.groundingMetadata.bind GroundingMetadata.groundingChunks).getD
      []).flatMap chunkUrisSpec
  | _ => []

/-! ## Streamed-chunk accumulation (Chatbot.tsx 120–147) and failure
(149–162) -/

/-- One insertion step of JavaScript `Set` construction: append the element
unless it is already present. -/
def insSeen (acc : List String) (u : String) : List String :=
  if u ∈ acc then acc else acc ++ [u]

/-- `[...new Set(l)]`: deduplicate, keeping the first occurrence of each
element, in first-seen order. -/
def jsSetOfList (l : List String) : List String := l.foldl insSeen []

/-- Chatbot.tsx 129–132: merge a chunk's URIs into the running list, skipping
the merge entirely when the chunk contributed none. -/
def accumulateUris (acc : List String) (chunkUris : List String) : List String :=
  if chunkUris.length > 0 then jsSetOfList (acc ++ chunkUris) else acc

/-- Chatbot.tsx 134–146: rewrite the last message with the running text and
URI totals, provided the list is nonempty and its last message has the model
role. -/
def updatePlaceholder (msgs : List ChatMessage) (text : String)
    (uris : List String) : List ChatMessage :=
  match msgs.getLast? with
  | some m =>
    if m.role = Role.model then
      msgs.dropLast
        ++ [{ m with parts := MsgParts.str text, groundingUris := some uris }]
    else msgs
  | none => msgs

/-- The running state of the `for await` loop: the rendered message list, the
accumulated text, and the accumulated grounding URIs. -/
structure StreamAccum where
  messages : List ChatMessage
  fullResponseText : String
  allGroundingUris : List String
deriving DecidableEq, Repr

/-- The body of the `for await` loop (Chatbot.tsx 123–147) for one chunk. -/
def streamStep (s : StreamAccum) (chunk : GenerateContentResponse) :
    StreamAccum :=
  let text :=
    if jsTruthyStr chunk.text then s.fullResponseText ++ chunk.text.getD ""
    else s.fullResponseText
  let uris := accumulateUris s.allGroundingUris (extractGroundingUris chunk)
  { messages := updatePlaceholder s.messages text uris,
    fullResponseText := text,
    allGroundingUris := uris }

/-- Chatbot.tsx 90–94: append the user's message and the `'...'` placeholder
model message before streaming. -/
def sendInitialMessages (prev : List ChatMessage) (query : String) (t : Nat) :
    List ChatMessage :=
  prev ++ [{ role := Role.user, parts := MsgParts.str query, timestamp := t },
           { role := Role.model, parts := MsgParts.str "...", timestamp := t }]

/-- Run the streaming loop over a list of received chunks. -/
def runStream (msgs0 : List ChatMessage)
    (chunks : List GenerateContentResponse) : StreamAccum :=
  chunks.foldl streamStep
    { messages := msgs0, fullResponseText := "", allGroundingUris := [] }

/-- The message list after a send whose stream completed normally. -/
def handleSendSuccess (prev : List ChatMessage) (query : String) (t : Nat)
    (chunks : List GenerateContentResponse) : List ChatMessage :=
  (runStream (sendInitialMessages prev query t) chunks).messages

/-- The fixed apology message of the catch block (Chatbot.tsx 151–159); its
`groundingUris` field is absent. -/
def apologyMessage (t : Nat) : ChatMessage :=
  { role := Role.model,
    parts := MsgParts.str
      "I apologize, but I encountered an error while processing your request. Please try again.",
    timestamp := t }

/-- The message list after a send that threw once `chunks` had already been
consumed: the catch block overwrites the last message with the apology. -/
def handleSendFailure (prev : List ChatMessage) (query : String) (t terr : Nat)
    (chunks : List GenerateContentResponse) : List ChatMessage :=
  let msgs := (runStream (sendInitialMessages prev query t) chunks).messages
  msgs.set (msgs.length - 1) (apologyMessage terr)

/-! ## Map view: the `gm_authFailure` hook (Chatbot.tsx source, lines
460–533 and 560–581) -/

/-- A function value held in the `window.gm_authFailure` slot: either a hook
installed by other code (identified by a number) or the override this
component installs. -/
inductive Hook where
  | external (id : Nat) : Hook
  | ours : Hook
deriving DecidableEq, Repr

/-- The two global slots the loader manipulates: `window.gm_authFailure`
(`none` = the property is absent) and the module-level
`originalGmAuthFailure`. -/
structure HookState where
  windowHook : Option Hook
  savedOriginal : Option Hook
deriving DecidableEq, Repr

/-- Lines 464–465: save the current hook and install the override before
appending the script tag. -/
def hookStartLoad (st : HookState) : HookState :=
  { windowHook := some Hook.ours, savedOriginal := st.windowHook }

/-- Lines 465–480, the override's body on a vendor auth failure: restore the
saved hook (or delete the slot when there was none) and clear the saved
reference. -/
def hookAuthFailure (st : HookState) : HookState :=
  { windowHook := st.savedOriginal, savedOriginal := none }

/-- Lines 488–507, `script.onload` (with `mapsAvailable` standing for
`window.google?.maps` being present): restore or delete the slot only when
the maps object is available, then clear the saved reference
unconditionally. -/
def hookLoadDone (mapsAvailable : Bool) (st : HookState) : HookState :=
  if mapsAvailable && st.savedOriginal.isSome then
    { windowHook := st.savedOriginal, savedOriginal := none }
  else if mapsAvailable then
    { windowHook := none, savedOriginal := none }
  else
    { windowHook := st.windowHook, savedOriginal := none }

/-- Lines 509–524, `script.onerror`: restore the saved hook (or delete) and
clear the saved reference. -/
def hookScriptError (st : HookState) : HookState :=
  { windowHook := st.savedOriginal, savedOriginal := none }

/-- Lines 573–580, the unmount cleanup: when the window slot differs from the
saved reference, overwrite it with the saved reference (deleting when that is
absent) and clear the reference. -/
def hookUnmountCleanup (st : HookState) : HookState :=
  if st.windowHook = st.savedOriginal then st
  else { windowHook := st.savedOriginal, savedOriginal := none }

/-! ## Map view: markers and selection sync (MapVisualization effect,
Chatbot.tsx source lines 584–672) -/

/-- The icon facet of a marker that the effect sets. -/
structure MarkerIcon where
  fillColor : String
  fillOpacityTenths : Nat
  strokeWeight : Nat
  scale : Nat
deriving DecidableEq, Repr

/-- A map marker as far as the sync effect reads and writes it: title,
position and icon. -/
structure Marker where
  title : Option String
  posLat : JsNum
  posLng : JsNum
  icon : MarkerIcon
deriving DecidableEq, Repr

/-- The icon given to the selected store's marker in the sync pass (lines
640–646): red, opacity 0.9, scale 10. -/
def selectedIcon : MarkerIcon :=
  { fillColor := "#FF0000", fillOpacityTenths := 9, strokeWeight := 0,
    scale := 10 }

/-- The icon given to every other marker in the sync pass (lines 662–668):
blue, opacity 0.8, scale 8. -/
def unselectedIcon : MarkerIcon :=
  { fillColor := "#0000FF", fillOpacityTenths := 8, strokeWeight := 0,
    scale := 8 }

/-- The icon a marker is created with (lines 597–603): color chosen by
`selectedStore?.id === store.id`, opacity 0.8, scale 8. -/
def creationIcon (selectedStore : Option StoreData) (store : StoreData) :
    MarkerIcon :=
  { fillColor :=
      if (match selectedStore with
          | some s => s.id == store.id
          | none => false) then "#FF0000" else "#0000FF",
    fillOpacityTenths := 8, strokeWeight := 0, scale := 8 }

/-- Marker creation (lines 591–604): title is the store's city, position its
coordinates. -/
def createMarker (selectedStore : Option StoreData) (store : StoreData) :
    Marker :=
  { title := store.city, posLat := store.latitude,
    posLng := store.longitude, icon := creationIcon selectedStore store }

/-- The highlight condition of the sync pass (lines 636–638): the marker's
title strictly equals the selected store's city AND its position coordinates
strictly equal the store's latitude and longitude (`===` on numbers). -/
def markerMatchesSelection (selectedStore : Option StoreData) (m : Marker) :
    Bool :=
  match selectedStore with
  | some s =>
    m.title == s.city && JsNum.strictEq m.posLat s.latitude
      && JsNum.strictEq m.posLng s.longitude
  | none => false

/-- Lines 635–670: the per-marker icon rewrite of the sync pass. -/
def syncMarkerIcon (selectedStore : Option StoreData) (m : Marker) : Marker :=
  if markerMatchesSelection selectedStore m then { m with icon := selectedIcon }
  else { m with icon := unselectedIcon }

/-- The full marker outcome of the sync effect: one fresh marker per store,
then every icon rewritten by the selection pass. -/
def syncMarkers (stores : List StoreData) (selectedStore : Option StoreData) :
    List Marker :=
  (stores.map (createMarker selectedStore)).map (syncMarkerIcon selectedStore)

/-! ## File ingestion (`parseExcelFile`, FileUpload in the Chatbot.tsx
source, lines 287–321) -/

/-- One data row of `XLSX.utils.sheet_to_json`: the cells under the expected
headers; a missing cell is `none` (`sheet_to_json` omits empty cells). -/
structure Row where
  City : Option String
  Latitude : Option String
  Longitude : Option String
  Sales : Option String
  Profit : Option String
  Employees : Option String
deriving DecidableEq, Repr

/-- Modelled from the spec: the vendor `parseFloat` applied to a cell —
"numeric columns are parsed with best-effort float conversion (non-numeric
input yields not-a-number)" — with an absent cell (`undefined`) parsing to
`NaN`. The model parses natural-number numerals and maps everything else to
`NaN`; no claim depends on the conversion itself. -/
def parseFloatM (cell : Option String) : JsNum :=
  match cell with
  | none => JsNum.nan
  | some s =>
    match s.toNat? with
    | some n => JsNum.val n
    | none => JsNum.nan

/-- The row-mapping of `parseExcelFile` (lines 299–308): one `StoreData` per
data row, in row order, with `id` the template literal
`store-${index}`. -/
def parseExcelRows (rows : List Row) : List StoreData :=
  rows.mapIdx (fun index row =>
    { id := "store-" ++ Nat.repr index,
      city := row.City,
      latitude := parseFloatM row.Latitude,
      longitude := parseFloatM row.Longitude,
      sales := parseFloatM row.Sales,
      profit := parseFloatM row.Profit,
      employees := parseFloatM row.Employees })

/-! ## Concrete instances used in scenarios and witnesses -/

/-- A demo spreadsheet row with only the city cell filled. -/
def demoRow (c : String) : Row :=
  ⟨some c, none, none, none, none, none⟩

/-- The "Jakarta" store of the spec's concrete scenario
(`Jakarta,-6.2,106.8,1000,200,5`, imported as the first row). -/
def jakartaStore : StoreData :=
  { id := "store-0", city := some "Jakarta",
    latitude := JsNum.val (-31/5), longitude := JsNum.val (534/5),
    sales := JsNum.val 1000, profit := JsNum.val 200,
    employees := JsNum.val 5 }

/-- A browser-geolocation coordinate distinct from Jakarta's. -/
def someUserLocation : LatLng := ⟨JsNum.val 1, JsNum.val 2⟩

/-- A streamed chunk whose grounding carries the single web URI
`https://a`. -/
def demoChunk1 : GenerateContentResponse :=
  GenerateContentResponse.mk
    (some [Candidate.mk (some (GroundingMetadata.mk
      (some [GroundingChunk.mk (some (WebGrounding.mk (some "https://a")))
        none])))])
    (some "Hello ")

/-- A streamed chunk whose grounding repeats the web URI `https://a` and adds
the maps URI `https://b`. -/
def demoChunk2 : GenerateContentResponse :=
  GenerateContentResponse.mk
    (some [Candidate.mk (some (GroundingMetadata.mk
      (some [GroundingChunk.mk (some (WebGrounding.mk (some "https://a")))
        (some (MapsGrounding.mk (some "https://b") none))])))])
    (some "world")

/-- A store in "Dupeville"; shares city and coordinates with
`storeDupeB` but has a different identifier and metrics. -/
def storeDupeA : StoreData :=
  { id := "store-0", city := some "Dupeville",
    latitude := JsNum.val 1, longitude := JsNum.val 2,
    sales := JsNum.val 10, profit := JsNum.val 1,
    employees := JsNum.val 3 }

/-- A second, distinct store with the same city name and coordinates as
`storeDupeA`. -/
def storeDupeB : StoreData :=
  { id := "store-1", city := some "Dupeville",
    latitude := JsNum.val 1, longitude := JsNum.val 2,
    sales := JsNum.val 99, profit := JsNum.val 7,
    employees := JsNum.val 4 }

/-- A fresh DOM/module state before any load attempt. -/
def freshMapsState : MapsDomState :=
  { googleMapsAvailable := false, mapRefAttached := true,
    mapInitialized := false, loadingInFlight := false,
    mapLoadError := none, scriptTagPresent := false }

/-! ## Theorems -/

/-- C7: `handleDataUpload` replaces the whole store list with the parsed
records, clears the selection (for every prior state, so any existing
selection is cleared), and leaves the rest of the shell state unchanged. -/
theorem upload_replaces_stores_and_clears_selection
    (st : AppState) (data : List StoreData) :
    (handleDataUpload st data).stores = data ∧
    (handleDataUpload st data).selectedStore = none ∧
    (handleDataUpload st data).userLocation = st.userLocation ∧
    (handleDataUpload st data).showGeolocationPrompt = st.showGeolocationPrompt :=
  ⟨rfl, rfl, rfl, rfl⟩

/-- C2: the location bias of an outgoing chat request follows the priority
rule — a selected store's coordinate wins; otherwise the user's geolocation
is used; otherwise no `toolConfig` is sent at all. -/
theorem sendMessage_locationBias_priority
    (sel : Option StoreData) (loc : Option LatLng) :
    (∀ s, sel = some s →
      (buildSendMessageConfig sel loc).toolConfig =
        some ⟨⟨⟨s.latitude, s.longitude⟩⟩⟩) ∧
    (∀ u, sel = none → loc = some u →
      (buildSendMessageConfig sel loc).toolConfig = some ⟨⟨u⟩⟩) ∧
    (sel = none → loc = none →
      (buildSendMessageConfig sel loc).toolConfig = none) := by
  refine ⟨?_, ?_, ?_⟩
  · rintro s rfl
    simp [buildSendMessageConfig, chooseRetrievalConfig]
  · rintro u rfl rfl
    simp [buildSendMessageConfig, chooseRetrievalConfig]
  · rintro rfl rfl
    simp [buildSendMessageConfig, chooseRetrievalConfig]

/-- Witness for C2, the spec's concrete scenario: with "Jakarta" selected and
a geolocation result present, the outgoing bias is Jakarta's coordinate, not
the user's. -/
theorem sendMessage_locationBias_priority_witness :
    (buildSendMessageConfig (some jakartaStore) (some someUserLocation)).toolConfig =
      some ⟨⟨⟨JsNum.val (-31/5), JsNum.val (534/5)⟩⟩⟩ ∧
    (⟨JsNum.val (-31/5), JsNum.val (534/5)⟩ : LatLng) ≠ someUserLocation :=
  ⟨(sendMessage_locationBias_priority (some jakartaStore)
      (some someUserLocation)).1 jakartaStore rfl,
   by simp [someUserLocation, LatLng.mk.injEq, JsNum.val.injEq]; norm_num⟩

/-- C5: with the AI credential absent at mount, no chat session is created,
exactly the one fixed error message is present after the mount effect, and
the chat input is disabled. -/
theorem missingApiKey_disables_chat
    (apiKey : Option String) (createThrows : Bool) (now : Nat)
    (h : jsTruthyStr apiKey = false) :
    (initChatEffect apiKey createThrows now mountChatState).chat = none ∧
    (initChatEffect apiKey createThrows now mountChatState).messages =
      [apiKeyMissingMessage now] ∧
    (initChatEffect apiKey createThrows now mountChatState).messages.length = 1 ∧
    chatInputDisabled (initChatEffect apiKey createThrows now mountChatState) = true := by
  simp [initChatEffect, h, mountChatState, chatInputDisabled]

/-- Witness for C5 with the key literally absent (`undefined`). -/
theorem missingApiKey_disables_chat_witness :
    (initChatEffect none false 0 mountChatState).chat = none ∧
    (initChatEffect none false 0 mountChatState).messages =
      [apiKeyMissingMessage 0] ∧
    (initChatEffect none false 0 mountChatState).messages.length = 1 ∧
    chatInputDisabled (initChatEffect none false 0 mountChatState) = true :=
  missingApiKey_disables_chat none false 0 rfl

/-- C6: when the mapping credential is absent (or empty, hence falsy) or
equals the unresolved placeholder string, and no load is already live or in
flight, `loadGoogleMapsScript` records the configuration error and rejects
without injecting a script tag or starting a load. -/
theorem invalidMapsKey_rejects_without_script
    (key : Option String) (st : MapsDomState)
    (hbad : mapsApiKeyInvalid key = true)
    (hinit : st.mapInitialized = false)
    (hflight : st.loadingInFlight = false) :
    (loadGoogleMapsScript key st).1 = LoadCall.rejectedConfig ∧
    (loadGoogleMapsScript key st).2.mapLoadError = some mapsConfigErrorMsg ∧
    (loadGoogleMapsScript key st).2.scriptTagPresent = st.scriptTagPresent ∧
    (loadGoogleMapsScript key st).2.loadingInFlight = false := by
  simp [loadGoogleMapsScript, hbad, hinit, hflight]

/-- Witness for C6: an absent key against a fresh state. -/
theorem invalidMapsKey_rejects_without_script_witness :
    (loadGoogleMapsScript none freshMapsState).1 = LoadCall.rejectedConfig ∧
    (loadGoogleMapsScript none freshMapsState).2.mapLoadError =
      some mapsConfigErrorMsg ∧
    (loadGoogleMapsScript none freshMapsState).2.scriptTagPresent =
      freshMapsState.scriptTagPresent ∧
    (loadGoogleMapsScript none freshMapsState).2.loadingInFlight = false :=
  invalidMapsKey_rejects_without_script none freshMapsState rfl rfl rfl

/-! ### Helper lemmas: JavaScript `Set` deduplication -/

theorem insSeen_nodup {acc : List String} {u : String} (h : acc.Nodup) :
    (insSeen acc u).Nodup := by
  unfold insSeen
  split
  · exact h
  · next hu =>
    rw [List.nodup_append]
    refine ⟨h, List.nodup_singleton u, ?_⟩
    intro a ha hb
    simp only [List.mem_singleton] at hb
    exact hu (hb ▸ ha)

theorem foldl_insSeen_nodup (l : List String) :
    ∀ acc : List String, acc.Nodup → (l.foldl insSeen acc).Nodup := by
  induction l with
  | nil => intro acc h; exact h
  | cons x xs ih => intro acc h; exact ih _ (insSeen_nodup h)

theorem foldl_insSeen_of_nodup (l : List String) :
    ∀ acc : List String, (acc ++ l).Nodup → l.foldl insSeen acc = acc ++ l := by
  induction l with
  | nil => intro acc _; simp
  | cons x xs ih =>
    intro acc h
    have hx : x ∉ acc := by
      intro hmem
      have := (List.nodup_append.mp h).2.2
      exact this hmem (List.mem_cons_self x xs)
    have hstep : insSeen acc x = acc ++ [x] := by simp [insSeen, hx]
    have hrest : ((acc ++ [x]) ++ xs).Nodup := by
      rw [List.append_assoc]; simpa using h
    calc (x :: xs).foldl insSeen acc = xs.foldl insSeen (acc ++ [x]) := by
          simp [List.foldl_cons, hstep]
      _ = (acc ++ [x]) ++ xs := ih _ hrest
      _ = acc ++ x :: xs := by simp

theorem jsSetOfList_nodup (l : List String) : (jsSetOfList l).Nodup :=
  foldl_insSeen_nodup l [] List.nodup_nil

theorem jsSetOfList_idem (l : List String) :
    jsSetOfList (jsSetOfList l) = jsSetOfList l := by
  have := foldl_insSeen_of_nodup (jsSetOfList l) []
    (by simpa using jsSetOfList_nodup l)
  simpa [jsSetOfList] using this

theorem jsSetOfList_append (a b : List String) :
    jsSetOfList (a ++ b) = b.foldl insSeen (jsSetOfList a) := by
  simp [jsSetOfList, List.foldl_append]

theorem jsSetOfList_dedup_left (a b : List String) :
    jsSetOfList (jsSetOfList a ++ b) = jsSetOfList (a ++ b) := by
  rw [jsSetOfList_append, jsSetOfList_append, jsSetOfList_idem]

theorem foldl_accumulateUris (ls : List (List String)) :
    ∀ acc : List String,
      ls.foldl accumulateUris (jsSetOfList acc) = jsSetOfList (acc ++ ls.flatten) := by
  induction ls with
  | nil => intro acc; simp
  | cons c cs ih =>
    intro acc
    have hstep : accumulateUris (jsSetOfList acc) c = jsSetOfList (acc ++ c) := by
      unfold accumulateUris
      split
      · exact jsSetOfList_dedup_left acc c
      · next hc =>
        have : c = [] := by
          cases c with
          | nil => rfl
          | cons x xs => simp at hc
        simp [this]
    calc (c :: cs).foldl accumulateUris (jsSetOfList acc)
        = cs.foldl accumulateUris (jsSetOfList (acc ++ c)) := by
          simp [List.foldl_cons, hstep]
      _ = jsSetOfList ((acc ++ c) ++ cs.flatten) := ih (acc ++ c)
      _ = jsSetOfList (acc ++ (c :: cs).flatten) := by
          simp [List.append_assoc]

/-! ### Helper lemmas: streaming loop -/

theorem runStream_uris_aux (chunks : List GenerateContentResponse) :
    ∀ s : StreamAccum,
      (chunks.foldl streamStep s).allGroundingUris =
        (chunks.map extractGroundingUris).foldl accumulateUris s.allGroundingUris := by
  induction chunks with
  | nil => intro s; rfl
  | cons c cs ih => intro s; simp [List.foldl_cons, ih, streamStep]

theorem runStream_uris (msgs0 : List ChatMessage)
    (chunks : List GenerateContentResponse) :
    (runStream msgs0 chunks).allGroundingUris =
      jsSetOfList (chunks.map extractGroundingUris).flatten := by
  have h := runStream_uris_aux chunks
    { messages := msgs0, fullResponseText := "", allGroundingUris := [] }
  have h2 := foldl_accumulateUris (chunks.map extractGroundingUris) []
  simpa [runStream, jsSetOfList] using h.trans (by simpa using h2)

theorem getLast?_append_pair {α : Type _} (l : List α) (a b : α) :
    (l ++ [a, b]).getLast? = some b := by
  rw [show l ++ [a, b] = (l ++ [a]) ++ [b] by simp]
  exact List.getLast?_concat _

theorem updatePlaceholder_concat (ys : List ChatMessage) (m : ChatMessage)
    (text : String) (uris : List String) :
    updatePlaceholder (ys ++ [m]) text uris =
      if m.role = Role.model then
        ys ++ [{ m with parts := MsgParts.str text, groundingUris := some uris }]
      else ys ++ [m] := by
  simp [updatePlaceholder, List.getLast?_concat, List.dropLast_concat]

theorem updatePlaceholder_length (msgs : List ChatMessage) (text : String)
    (uris : List String) :
    (updatePlaceholder msgs text uris).length = msgs.length := by
  cases h : msgs.getLast? with
  | none =>
    have : msgs = [] := by
      cases msgs with
      | nil => rfl
      | cons x xs => simp at h
    subst this; rfl
  | some m =>
    obtain ⟨ys, rfl⟩ := List.getLast?_eq_some_iff.mp h
    rw [updatePlaceholder_concat]
    split <;> simp

theorem runStream_length (chunks : List GenerateContentResponse) :
    ∀ s : StreamAccum,
      (chunks.foldl streamStep s).messages.length = s.messages.length := by
  induction chunks with
  | nil => intro s; rfl
  | cons c cs ih =>
    intro s
    simp [List.foldl_cons, ih, streamStep, updatePlaceholder_length]

theorem updatePlaceholder_getLast (msgs : List ChatMessage) (text : String)
    (uris : List String) (m : ChatMessage) (h : msgs.getLast? = some m)
    (hr : m.role = Role.model) :
    (updatePlaceholder msgs text uris).getLast? =
      some { m with parts := MsgParts.str text, groundingUris := some uris } := by
  obtain ⟨ys, rfl⟩ := List.getLast?_eq_some_iff.mp h
  rw [updatePlaceholder_concat, if_pos hr]
  exact List.getLast?_concat _

theorem runStream_last_aux (chunks : List GenerateContentResponse) :
    ∀ s : StreamAccum, ∀ m : ChatMessage,
      s.messages.getLast? = some m → m.role = Role.model →
      m.groundingUris = some s.allGroundingUris →
      ∃ m', (chunks.foldl streamStep s).messages.getLast? = some m' ∧
        m'.role = Role.model ∧
        m'.groundingUris = some (chunks.foldl streamStep s).allGroundingUris := by
  induction chunks with
  | nil =>
    intro s m h hr hg
    exact ⟨m, h, hr, hg⟩
  | cons c cs ih =>
    intro s m h hr hg
    have hstep := updatePlaceholder_getLast s.messages
      (if jsTruthyStr c.text then s.fullResponseText ++ c.text.getD ""
        else s.fullResponseText)
      (accumulateUris s.allGroundingUris (extractGroundingUris c)) m h hr
    exact ih (streamStep s c) _ hstep hr rfl

theorem sendInitialMessages_getLast (prev : List ChatMessage) (query : String)
    (t : Nat) :
    (sendInitialMessages prev query t).getLast? =
      some { role := Role.model, parts := MsgParts.str "...", timestamp := t } := by
  unfold sendInitialMessages
  exact getLast?_append_pair _ _ _

/-! ### Helper lemmas: `extractGroundingUris` closed form -/

theorem foldl_append_eq_flatMap {α β : Type _} (f : α → List β) (l : List α) :
    ∀ acc : List β,
      l.foldl (fun a x => a ++ f x) acc = acc ++ l.flatMap f := by
  induction l with
  | nil => intro acc; simp
  | cons x xs ih =>
    intro acc
    rw [List.foldl_cons, ih]
    simp [List.append_assoc]

theorem snippetFold_eq (acc : List String) (src : PlaceAnswerSource) :
    snippetFold acc src =
      acc ++ (src.reviewSnippets.getD []).flatMap
        (fun sn => truthyToList sn.uri) := by
  unfold snippetFold
  cases h : src.reviewSnippets with
  | none => simp
  | some snippets =>
    simpa using foldl_append_eq_flatMap (fun sn => truthyToList sn.uri)
      snippets acc

theorem sourcesFold_eq (sources : List PlaceAnswerSource) :
    ∀ acc : List String,
      sources.foldl snippetFold acc =
        acc ++ sources.flatMap (fun src =>
          (src.reviewSnippets.getD []).flatMap (fun sn => truthyToList sn.uri)) := by
  induction sources with
  | nil => intro acc; simp
  | cons s ss ih =>
    intro acc
    rw [List.foldl_cons, snippetFold_eq, ih]
    simp [List.append_assoc]

theorem placeAnswerUris_eq (maps : Option MapsGrounding) :
    placeAnswerUris maps =
      ((maps.bind MapsGrounding.placeAnswerSources).getD []).flatMap
        (fun src => (src.reviewSnippets.getD []).flatMap
          (fun sn => truthyToList sn.uri)) := by
  unfold placeAnswerUris
  cases h : maps.bind MapsGrounding.placeAnswerSources with
  | none => simp
  | some sources => simpa using sourcesFold_eq sources []

theorem chunkFold_eq (uris : List String) (chunk : GroundingChunk) :
    chunkFold uris chunk = uris ++ chunkUrisSpec chunk := by
  unfold chunkFold chunkUrisSpec
  rw [placeAnswerUris_eq]
  simp [List.append_assoc]

theorem chunksFold_eq (chunks : List GroundingChunk) :
    ∀ acc : List String,
      chunks.foldl chunkFold acc = acc ++ chunks.flatMap chunkUrisSpec := by
  induction chunks with
  | nil => intro acc; simp
  | cons c cs ih =>
    intro acc
    rw [List.foldl_cons, chunkFold_eq, ih]
    simp [List.append_assoc]

/-- C10: `extractGroundingUris` equals its specification — it reads only the
first candidate, and per grounding chunk, in order, yields the (truthy) web
URI, then the (truthy) maps URI, then all review-snippet URIs of all
place-answer sources; and its result never depends on the candidates after
the first, nor on the chunk text. -/
theorem extractGroundingUris_firstCandidate
    (r : GenerateContentResponse) :
    extractGroundingUris r = groundingUrisSpec r ∧
    (∀ (c : Candidate) (cs cs' : List Candidate) (t t' : Option String),
      extractGroundingUris ⟨some (c :: cs), t⟩ =
        extractGroundingUris ⟨some (c :: cs'), t'⟩) := by
  constructor
  · obtain ⟨cands, t⟩ := r
    unfold extractGroundingUris groundingUrisSpec
    cases cands with
    | none => rfl
    | some l =>
      cases l with
      | nil => rfl
      | cons c cs =>
        obtain ⟨gmOpt⟩ := c
        cases gmOpt with
        | none => rfl
        | some gm =>
          obtain ⟨chunksOpt⟩ := gm
          cases chunksOpt with
          | none => rfl
          | some chunks => simpa using chunksFold_eq chunks []
  · intro c cs cs' t t'
    rfl

theorem runStream_messages_length (msgs0 : List ChatMessage)
    (chunks : List GenerateContentResponse) :
    (runStream msgs0 chunks).messages.length = msgs0.length :=
  runStream_length chunks _

theorem runStream_attach (msgs0 : List ChatMessage)
    (chunks : List GenerateContentResponse) (m : ChatMessage)
    (h : msgs0.getLast? = some m) (hr : m.role = Role.model)
    (hne : chunks ≠ []) :
    ∃ m', (runStream msgs0 chunks).messages.getLast? = some m' ∧
      m'.role = Role.model ∧
      m'.groundingUris = some (runStream msgs0 chunks).allGroundingUris := by
  obtain ⟨c, cs, rfl⟩ : ∃ c cs, chunks = c :: cs := by
    cases chunks with
    | nil => exact absurd rfl hne
    | cons c cs => exact ⟨c, cs, rfl⟩
  have h1 := updatePlaceholder_getLast msgs0
    (if jsTruthyStr c.text then "" ++ c.text.getD "" else "")
    (accumulateUris [] (extractGroundingUris c)) m h hr
  exact runStream_last_aux cs _ _ h1 hr rfl

/-- C3: across any streamed chunk sequence, the accumulated citation-URI list
equals the concatenation of all URIs extracted from the chunks with
duplicates removed, keeping the first occurrence of each URI in first-seen
order (JavaScript `Set` semantics, `jsSetOfList`); it therefore has no
duplicates, and once at least one chunk has arrived, exactly this list is
attached to the assistant (last) message. -/
theorem citations_dedup_first_seen (prev : List ChatMessage) (query : String)
    (t : Nat) (chunks : List GenerateContentResponse) :
    (runStream (sendInitialMessages prev query t) chunks).allGroundingUris =
      jsSetOfList (chunks.map extractGroundingUris).flatten ∧
    ((runStream (sendInitialMessages prev query t) chunks).allGroundingUris).Nodup ∧
    (chunks ≠ [] →
      (handleSendSuccess prev query t chunks).getLast?.map ChatMessage.groundingUris =
        some (some (jsSetOfList (chunks.map extractGroundingUris).flatten))) := by
  refine ⟨runStream_uris _ _, ?_, ?_⟩
  · rw [runStream_uris]
    exact jsSetOfList_nodup _
  · intro hne
    obtain ⟨m', hlast, _, hg⟩ := runStream_attach (sendInitialMessages prev query t)
      chunks _ (sendInitialMessages_getLast prev query t) rfl hne
    unfold handleSendSuccess
    rw [hlast]
    show some m'.groundingUris = _
    rw [hg, runStream_uris]

/-- Witness for C3: two chunks repeating `https://a` produce the deduplicated
first-seen-order list `["https://a", "https://b"]` on the final assistant
message. -/
theorem citations_dedup_first_seen_witness :
    [demoChunk1, demoChunk2] ≠ ([] : List GenerateContentResponse) ∧
    (handleSendSuccess [] "q" 0 [demoChunk1, demoChunk2]).getLast?.map
        ChatMessage.groundingUris =
      some (some ["https://a", "https://b"]) := by
  refine ⟨by simp, ?_⟩
  have h := (citations_dedup_first_seen [] "q" 0 [demoChunk1, demoChunk2]).2.2
    (by simp)
  rw [h]
  decide

theorem set_last_getLast {α : Type _} (v : α) :
    ∀ l : List α, l ≠ [] → (l.set (l.length - 1) v).getLast? = some v := by
  intro l
  induction l with
  | nil => intro h; exact absurd rfl h
  | cons x xs ih =>
    intro _
    cases xs with
    | nil => rfl
    | cons y ys =>
      have hstep : (x :: y :: ys).set ((x :: y :: ys).length - 1) v
          = x :: ((y :: ys).set ((y :: ys).length - 1) v) := by
        simp [List.length_cons]
      rw [hstep]
      have h2 := ih (by simp)
      cases hset : (y :: ys).set ((y :: ys).length - 1) v with
      | nil =>
        have := congrArg List.length hset
        simp at this
      | cons z zs =>
        rw [hset] at h2
        rw [List.getLast?_cons_cons]
        exact h2

/-- C4: when the streaming call fails after any prefix of chunks, the catch
block overwrites the last (placeholder) message with the one fixed apology
message, which carries no citation list — so whatever partial text the
chunks had accumulated is discarded from display, and nothing else is
appended or retried. -/
theorem streamFailure_replaces_placeholder (prev : List ChatMessage)
    (query : String) (t terr : Nat) (chunks : List GenerateContentResponse) :
    (handleSendFailure prev query t terr chunks).getLast? =
      some (apologyMessage terr) ∧
    handleSendFailure prev query t terr chunks =
      (handleSendSuccess prev query t chunks).set
        ((handleSendSuccess prev query t chunks).length - 1)
        (apologyMessage terr) ∧
    (apologyMessage terr).groundingUris = none := by
  refine ⟨?_, rfl, rfl⟩
  have hne : (runStream (sendInitialMessages prev query t) chunks).messages ≠ [] := by
    intro h
    have := congrArg List.length h
    rw [runStream_messages_length] at this
    simp [sendInitialMessages] at this
  exact set_last_getLast (apologyMessage terr) _ hne

/-- C8 is refuted by the code: with a pre-existing hook installed, the
success path restores it in `onload`, but the unmount cleanup — comparing
the window slot against the already-cleared saved reference — then deletes
it (final slot `none`); and on the loaded-but-`google.maps`-missing `onload`
path the override is left installed while the saved reference is cleared. -/
theorem gmAuthFailure_hook_clobbered :
    (hookLoadDone true (hookStartLoad ⟨some (Hook.external 0), none⟩)).windowHook
      = some (Hook.external 0) ∧
    (hookUnmountCleanup (hookLoadDone true
      (hookStartLoad ⟨some (Hook.external 0), none⟩))).windowHook = none ∧
    hookLoadDone false (hookStartLoad ⟨some (Hook.external 0), none⟩) =
      ⟨some Hook.ours, none⟩ := by
  decide

/-! ### Helper lemmas: marker sync -/

theorem syncMarkers_get (stores : List StoreData) (sel : Option StoreData)
    (i : Nat) (h : i < (syncMarkers stores sel).length)
    (h2 : i < stores.length) :
    (syncMarkers stores sel).get ⟨i, h⟩ =
      syncMarkerIcon sel (createMarker sel (stores.get ⟨i, h2⟩)) := by
  simp [syncMarkers]

theorem syncMarkerIcon_selected_iff (sel : Option StoreData) (m : Marker) :
    (syncMarkerIcon sel m).icon = selectedIcon ↔
      markerMatchesSelection sel m = true := by
  unfold syncMarkerIcon
  split
  · next hm => simp [hm]
  · next hm =>
    constructor
    · intro hic
      exfalso
      have := congrArg MarkerIcon.fillColor hic
      simp [selectedIcon, unselectedIcon] at this
    · intro hmm; exact absurd hmm hm

theorem syncMarkerIcon_title (sel : Option StoreData) (m : Marker) :
    (syncMarkerIcon sel m).title = m.title := by
  unfold syncMarkerIcon; split <;> rfl

theorem syncMarkerIcon_posLat (sel : Option StoreData) (m : Marker) :
    (syncMarkerIcon sel m).posLat = m.posLat := by
  unfold syncMarkerIcon; split <;> rfl

theorem syncMarkerIcon_posLng (sel : Option StoreData) (m : Marker) :
    (syncMarkerIcon sel m).posLng = m.posLng := by
  unfold syncMarkerIcon; split <;> rfl

/-- C9: after the marker-sync pass, marker `i` carries the store's city as
title and the store's coordinates as position, and it is styled as selected
exactly when its title equals the selected store's city and its position
strictly equals the selected store's latitude and longitude — matching by
title and coordinate, never by store identifier. -/
theorem markerHighlight_by_title_and_coordinate (stores : List StoreData)
    (sel : Option StoreData) (i : Nat)
    (h : i < (syncMarkers stores sel).length) (h2 : i < stores.length) :
    (((syncMarkers stores sel).get ⟨i, h⟩).icon = selectedIcon ↔
      (∃ s, sel = some s ∧
        ((syncMarkers stores sel).get ⟨i, h⟩).title = s.city ∧
        JsNum.strictEq ((syncMarkers stores sel).get ⟨i, h⟩).posLat
          s.latitude = true ∧
        JsNum.strictEq ((syncMarkers stores sel).get ⟨i, h⟩).posLng
          s.longitude = true)) ∧
    ((syncMarkers stores sel).get ⟨i, h⟩).title = (stores.get ⟨i, h2⟩).city ∧
    ((syncMarkers stores sel).get ⟨i, h⟩).posLat =
      (stores.get ⟨i, h2⟩).latitude ∧
    ((syncMarkers stores sel).get ⟨i, h⟩).posLng =
      (stores.get ⟨i, h2⟩).longitude := by
  rw [syncMarkers_get stores sel i h h2]
  refine ⟨?_, by rw [syncMarkerIcon_title]; rfl,
    by rw [syncMarkerIcon_posLat]; rfl, by rw [syncMarkerIcon_posLng]; rfl⟩
  rw [syncMarkerIcon_selected_iff]
  cases sel with
  | none => simp [markerMatchesSelection]
  | some s =>
    simp only [syncMarkerIcon_title, syncMarkerIcon_posLat,
      syncMarkerIcon_posLng, markerMatchesSelection, Bool.and_eq_true,
      beq_iff_eq, Option.some.injEq]
    constructor
    · rintro ⟨⟨ht, hlat⟩, hlng⟩
      exact ⟨s, rfl, ht, hlat, hlng⟩
    · rintro ⟨s', rfl, ht, hlat, hlng⟩
      exact ⟨⟨ht, hlat⟩, hlng⟩

/-- Witness for C9, the duplicate-city-and-coordinate consequence: with two
distinct stores sharing city and coordinates and the first one selected, the
second store's marker is also styled as selected. -/
theorem markerHighlight_duplicate_witness :
    storeDupeA.id ≠ storeDupeB.id ∧
    ((syncMarkers [storeDupeA, storeDupeB] (some storeDupeA)).get
      ⟨1, by decide⟩).icon = selectedIcon := by
  refine ⟨by decide, ?_⟩
  exact (markerHighlight_by_title_and_coordinate [storeDupeA, storeDupeB]
    (some storeDupeA) 1 (by decide) (by decide)).1.mpr
    ⟨storeDupeA, rfl, by decide, by decide, by decide⟩

/-! ### Helper lemmas: decimal numerals (`Nat.repr`) are injective -/

theorem toDigitsCore_digits (n : Nat) :
    ∀ (fuel : Nat) (ds : List Char), 0 < n → n < fuel →
      Nat.toDigitsCore 10 fuel n ds =
        ((Nat.digits 10 n).map Nat.digitChar).reverse ++ ds := by
  induction n using Nat.strong_induction_on with
  | _ n ih =>
    intro fuel ds hn hfuel
    cases fuel with
    | zero => omega
    | succ f =>
      have hdig : Nat.digits 10 n = n % 10 :: Nat.digits 10 (n / 10) :=
        Nat.digits_def' (by norm_num) hn
      by_cases h0 : n / 10 = 0
      · have hnil : Nat.digits 10 (n / 10) = [] := by rw [h0]; simp
        simp only [Nat.toDigitsCore, h0, if_true]
        rw [hdig, hnil]
        simp
      · have h1 : 0 < n / 10 := Nat.pos_of_ne_zero h0
        have hlt : n / 10 < n := Nat.div_lt_self hn (by norm_num)
        have h2 : n / 10 < f := by omega
        simp only [Nat.toDigitsCore, h0, if_false]
        rw [ih (n / 10) hlt f (Nat.digitChar (n % 10) :: ds) h1 h2, hdig]
        simp [List.append_assoc]

theorem repr_eq_digits (n : Nat) (hn : 0 < n) :
    Nat.repr n = (((Nat.digits 10 n).map Nat.digitChar).reverse).asString := by
  show (Nat.toDigits 10 n).asString = _
  unfold Nat.toDigits
  rw [toDigitsCore_digits n (n + 1) [] hn (Nat.lt_succ_self n)]
  simp

theorem digitChar_inj_lt (a b : Nat) (ha : a < 10) (hb : b < 10)
    (h : Nat.digitChar a = Nat.digitChar b) : a = b := by
  interval_cases a <;> interval_cases b <;>
    first | rfl | (exact absurd h (by decide))

theorem map_digitChar_inj (l1 : List Nat) :
    ∀ l2 : List Nat, (∀ x ∈ l1, x < 10) → (∀ x ∈ l2, x < 10) →
      l1.map Nat.digitChar = l2.map Nat.digitChar → l1 = l2 := by
  induction l1 with
  | nil =>
    intro l2 _ _ h
    cases l2 with
    | nil => rfl
    | cons y ys => simp at h
  | cons x xs ih =>
    intro l2 h1 h2 h
    cases l2 with
    | nil => simp at h
    | cons y ys =>
      simp only [List.map_cons, List.cons.injEq] at h
      obtain ⟨hxy, hrest⟩ := h
      have hx := h1 x (List.mem_cons_self x xs)
      have hy := h2 y (List.mem_cons_self y ys)
      have hxs : ∀ z ∈ xs, z < 10 := fun z hz => h1 z (List.mem_cons_of_mem x hz)
      have hys : ∀ z ∈ ys, z < 10 := fun z hz => h2 z (List.mem_cons_of_mem y hz)
      rw [digitChar_inj_lt x y hx hy hxy, ih ys hxs hys hrest]

theorem asString_inj {a b : List Char} (h : a.asString = b.asString) : a = b :=
  congrArg String.data h

theorem string_ext {s t : String} (h : s.data = t.data) : s = t := by
  cases s; cases t; simp_all

theorem nat_repr_inj (m n : Nat) (h : Nat.repr m = Nat.repr n) : m = n := by
  rcases Nat.eq_zero_or_pos m with hm | hm <;>
    rcases Nat.eq_zero_or_pos n with hn | hn
  · omega
  · exfalso
    subst hm
    rw [repr_eq_digits n hn] at h
    have h2 := asString_inj h
    have h3 : (['0'] : List Char) =
        ((Nat.digits 10 n).map Nat.digitChar).reverse := by
      rw [← h2]; rfl
    have h4 : (Nat.digits 10 n).map Nat.digitChar = ['0'] := by
      have := congrArg List.reverse h3
      simpa using this.symm
    cases hd : Nat.digits 10 n with
    | nil => rw [hd] at h4; simp at h4
    | cons d ds =>
      rw [hd] at h4
      simp only [List.map_cons, List.cons.injEq, List.map_eq_nil_iff] at h4
      obtain ⟨hd0, hds⟩ := h4
      have hdlt : d < 10 := Nat.digits_lt_base (by norm_num)
        (by rw [hd]; exact List.mem_cons_self d ds)
      have hdzero : d = 0 := digitChar_inj_lt d 0 hdlt (by norm_num) hd0
      have := Nat.ofDigits_digits 10 n
      rw [hd, hds, hdzero] at this
      simp [Nat.ofDigits] at this
      omega
  · exfalso
    subst hn
    rw [repr_eq_digits m hm] at h
    have h2 := asString_inj h.symm
    have h3 : (['0'] : List Char) =
        ((Nat.digits 10 m).map Nat.digitChar).reverse := by
      rw [← h2]; rfl
    have h4 : (Nat.digits 10 m).map Nat.digitChar = ['0'] := by
      have := congrArg List.reverse h3
      simpa using this.symm
    cases hd : Nat.digits 10 m with
    | nil => rw [hd] at h4; simp at h4
    | cons d ds =>
      rw [hd] at h4
      simp only [List.map_cons, List.cons.injEq, List.map_eq_nil_iff] at h4
      obtain ⟨hd0, hds⟩ := h4
      have hdlt : d < 10 := Nat.digits_lt_base (by norm_num)
        (by rw [hd]; exact List.mem_cons_self d ds)
      have hdzero : d = 0 := digitChar_inj_lt d 0 hdlt (by norm_num) hd0
      have := Nat.ofDigits_digits 10 m
      rw [hd, hds, hdzero] at this
      simp [Nat.ofDigits] at this
      omega
  · rw [repr_eq_digits m hm, repr_eq_digits n hn] at h
    have h2 := asString_inj h
    have h3 := List.reverse_injective h2
    have h4 := map_digitChar_inj (Nat.digits 10 m) (Nat.digits 10 n)
      (fun x hx => Nat.digits_lt_base (by norm_num) hx)
      (fun x hx => Nat.digits_lt_base (by norm_num) hx) h3
    have h5 := congrArg (Nat.ofDigits 10) h4
    rwa [Nat.ofDigits_digits, Nat.ofDigits_digits] at h5

/-- C1: for every row list that parses, `parseExcelFile` yields one
`StoreData` per data row in row order, the `i`-th identifier is exactly
`store-` followed by the decimal numeral of `i`, and identifiers are
injective in the row index — hence unique and order-stable. -/
theorem parse_rows_ids (rows : List Row) :
    (parseExcelRows rows).length = rows.length ∧
    (∀ i (h : i < (parseExcelRows rows).length),
      ((parseExcelRows rows).get ⟨i, h⟩).id = "store-" ++ Nat.repr i) ∧
    (∀ i j (hi : i < (parseExcelRows rows).length)
        (hj : j < (parseExcelRows rows).length),
      ((parseExcelRows rows).get ⟨i, hi⟩).id =
        ((parseExcelRows rows).get ⟨j, hj⟩).id → i = j) := by
  have hid : ∀ i (h : i < (parseExcelRows rows).length),
      ((parseExcelRows rows).get ⟨i, h⟩).id = "store-" ++ Nat.repr i := by
    intro i h
    simp [parseExcelRows]
  refine ⟨by simp [parseExcelRows], hid, ?_⟩
  intro i j hi hj hidEq
  rw [hid i hi, hid j hj] at hidEq
  have hdata : "store-".data ++ (Nat.repr i).data =
      "store-".data ++ (Nat.repr j).data := congrArg String.data hidEq
  have hcancel := List.append_cancel_left hdata
  exact nat_repr_inj i j (string_ext hcancel)

/-- Witness for C1: a two-row sheet yields ids `store-0` and `store-1`. -/
theorem parse_rows_ids_witness :
    1 < (parseExcelRows [demoRow "Jakarta", demoRow "Bandung"]).length ∧
    ((parseExcelRows [demoRow "Jakarta", demoRow "Bandung"]).get
      ⟨1, by decide⟩).id = "store-" ++ Nat.repr 1 ∧
    "store-" ++ Nat.repr 1 = "store-1" :=
  ⟨by decide,
   (parse_rows_ids [demoRow "Jakarta", demoRow "Bandung"]).2.1 1 (by decide),
   by decide⟩
